import Mathlib

/-!
Verification of the IPO GMP dashboard's data pipeline (`src/src/App.tsx`):
date parsing, field formatting, sorting, filtering, the cache/refresh
controller, and the derived statistics.  JavaScript strings are modelled as
lists of characters, JavaScript numbers as rationals with `Option` capturing
`NaN`, and the stateful React controller as an explicit state-transition
function.  Host-environment primitives used by the source (`parseFloat`,
`Intl.NumberFormat`, the `Date` constructor, DOM-based HTML-entity decoding,
`localeCompare`, `Array.prototype.sort`) are modelled after their ECMA-262 /
WHATWG behaviour on the inputs this program feeds them, as documented on each
definition.
-/

namespace IpoGmp

/-- JavaScript strings are modelled as lists of characters. -/
abbrev Str : Type := List Char

/-- Conversion from Lean string literals to the `Str` model. -/
def str (s : String) : Str := s.data

/-- Value of a decimal digit character. -/
def digitVal (c : Char) : Nat := c.toNat - 48

/-- Numeric value of a list of decimal digit characters (most significant first). -/
def digitsToNat (ds : Str) : Nat := ds.foldl (fun n c => n * 10 + digitVal c) 0

/-- Characters kept by the source's strip regexp `[^0-9.-]+` (App.tsx line 76, 141):
digits, the decimal point and the minus sign. -/
def isNumericChar (c : Char) : Bool := c.isDigit || c == '.' || c == '-'

/-- JavaScript whitespace skipped by `parseFloat`. -/
def isJsSpace (c : Char) : Bool := c == ' ' || c == '\t' || c == '\n' || c == '\r'

/-- Unsigned part of the `parseFloat` grammar: `digits [. digits]`, at least one
digit overall.  Returns the parsed value, or `none` (JavaScript `NaN`) when no
digit is found. -/
def parseUnsigned (s : Str) : Option ℚ :=
  let I := s.takeWhile Char.isDigit
  let r := s.drop I.length
  let F := match r with
    | '.' :: r2 => r2.takeWhile Char.isDigit
    | _ => []
  if I = [] ∧ F = [] then none
  else some ((digitsToNat I : ℚ) + (digitsToNat F : ℚ) / (10 : ℚ) ^ F.length)

/-- Model of JavaScript `parseFloat` on the inputs this program produces:
leading whitespace is skipped, an optional sign is read, then the longest
prefix matching `digits [. digits]`; `none` stands for `NaN`.  (The exponent
and `Infinity` forms of the full grammar never occur in this program's data
and are not modelled.) -/
def jsParseFloat (s : Str) : Option ℚ :=
  match s.dropWhile isJsSpace with
  | '+' :: r => parseUnsigned r
  | '-' :: r => (parseUnsigned r).map (fun q => -q)
  | r => parseUnsigned r

/-- JavaScript `x || 0` applied to a `parseFloat` result: `NaN` (and `0`)
become `0` (App.tsx lines 141-142, 150-151, 252). -/
def parseFloatOrZero (s : Str) : ℚ := (jsParseFloat s).getD 0

/-- Rounding used by `Intl.NumberFormat` with `maximumFractionDigits: 0`:
round half away from zero (ECMA-402 default rounding mode `halfExpand`). -/
def jsRoundHalfExpand (q : ℚ) : ℤ :=
  if 0 ≤ q then ⌊q + 1 / 2⌋ else -⌊-q + 1 / 2⌋

/-- Groups of two digits, comma-separated, on a reversed (least significant
first) digit list; used above the lowest three digits by Indian grouping. -/
def groupRestRev : List Char → List Char
  | [] => []
  | [a] => [',', a]
  | a :: b :: rest => ',' :: a :: b :: groupRestRev rest

/-- Decimal digits of `n` with Indian (en-IN) comma grouping: the last three
digits form one group, every group above holds two digits. -/
def indianGroupedDigits (n : Nat) : Str :=
  let rev := (Nat.toDigits 10 n).reverse
  (rev.take 3 ++ groupRestRev (rev.drop 3)).reverse

/-- Model of `priceFormatter.format` (App.tsx lines 67-71):
`Intl.NumberFormat` with locale `en-IN`, INR currency style and
`maximumFractionDigits: 0` — the rupee sign followed by the rounded absolute
value with Indian digit grouping, with a leading minus sign when negative. -/
def priceFormatterFormat (q : ℚ) : Str :=
  let n := jsRoundHalfExpand q
  if n < 0 then '-' :: '₹' :: indianGroupedDigits n.natAbs
  else '₹' :: indianGroupedDigits n.natAbs

/-- Model of `priceFormatter.format` applied to a possibly-`NaN` number
(`none`): JavaScript renders `NaN` as the literal text `₹NaN`. -/
def priceFormatterFormatN : Option ℚ → Str
  | none => str ("₹NaN")
  | some q => priceFormatterFormat q

/-- Value of a hexadecimal digit character. -/
def hexVal (c : Char) : Nat :=
  if c.isDigit then c.toNat - 48
  else if 'a' ≤ c ∧ c ≤ 'f' then c.toNat - 87
  else c.toNat - 55

/-- Hexadecimal digit test. -/
def isHexDigit (c : Char) : Bool :=
  c.isDigit || ('a' ≤ c && c ≤ 'f') || ('A' ≤ c && c ≤ 'F')

/-- Numeric value of a list of hexadecimal digit characters. -/
def hexToNat (ds : Str) : Nat := ds.foldl (fun n c => n * 16 + hexVal c) 0

/-- One HTML entity at the start of `s` (the text right after a `&`): returns
the decoded character and how many characters of `s` it consumed, or `none`
when `s` does not start with a recognized entity.  Covers the named entities
and the decimal / hexadecimal numeric character references that occur in the
API's HTML-encoded fields. -/
def parseEntity (s : Str) : Option (Char × Nat) :=
  if (str ("amp;")).isPrefixOf s then some ('&', 4)
  else if (str ("lt;")).isPrefixOf s then some ('<', 3)
  else if (str ("gt;")).isPrefixOf s then some ('>', 3)
  else if (str ("quot;")).isPrefixOf s then some ('"', 5)
  else if (str ("apos;")).isPrefixOf s then some ('\'', 5)
  else if (str ("#x")).isPrefixOf s ∨ (str ("#X")).isPrefixOf s then
    let hex := (s.drop 2).takeWhile isHexDigit
    if hex ≠ [] ∧ (s.drop (2 + hex.length)).head? = some ';' then
      some (Char.ofNat (hexToNat hex), 2 + hex.length + 1)
    else none
  else if (str ("#")).isPrefixOf s then
    let ds := (s.drop 1).takeWhile Char.isDigit
    if ds ≠ [] ∧ (s.drop (1 + ds.length)).head? = some ';' then
      some (Char.ofNat (digitsToNat ds), 1 + ds.length + 1)
    else none
  else none

/-- Fuelled worker for `decodeHTML`; the fuel is the input length, which
suffices because every step consumes at least one character. -/
def decodeHTMLAux : Nat → Str → Str
  | 0, s => s
  | _ + 1, [] => []
  | fuel + 1, '&' :: rest =>
    match parseEntity rest with
    | some (c, k) => c :: decodeHTMLAux fuel (rest.drop k)
    | none => '&' :: decodeHTMLAux fuel rest
  | fuel + 1, c :: rest => c :: decodeHTMLAux fuel rest

/-- Model of `decodeHTML` (App.tsx lines 91-95).  The source assigns the text
to a detached DOM element's `innerHTML` and reads back `textContent`; on the
entity-encoded plain text this program feeds it, that is exactly text-only
HTML-entity decoding (spec §4.2: decoding is text-only, never a markup
render). -/
def decodeHTML (s : Str) : Str := decodeHTMLAux s.length s

/-- Model of `String.prototype.toLowerCase`: character-wise lower-casing. -/
def toLowerStr (s : Str) : Str := s.map Char.toLower

/-- Model of `String.prototype.includes sub`: `sub` occurs contiguously in the
given string. -/
def strIncludes (sub : Str) : Str → Bool
  | [] => sub.isEmpty
  | c :: t => if sub.isPrefixOf (c :: t) then true else strIncludes sub t

/-- One record of the API payload, as in the `GmpDataItem` interface
(App.tsx lines 45-58): nullable fields are `Option Str`. -/
structure GmpDataItem where
  ipo : Str
  price : Str
  gmp : Str
  est_listing : Str
  ipo_size : Str
  lot : Str
  «open» : Option Str
  close : Option Str
  boa_dt : Option Str
  listing : Option Str
  gmp_updated : Str
  classname : Option Str
deriving DecidableEq, Repr

/-- The display sentinel `"-"`. -/
def dashS : Str := str ("-")

/-- The placeholder `"--"`. -/
def dashdashS : Str := str ("--")

/-- Embedding of `formatPrice` (App.tsx lines 74-78).  `!price` is true for
JavaScript `null` and for the empty string; otherwise the input is stripped to
`[0-9.-]`, parsed with `parseFloat`, and either the sentinel (on `NaN`) or the
formatted number is returned. -/
def formatPrice (price : Option Str) : Str :=
  match price with
  | none => dashS
  | some s =>
    if s = [] ∨ s = dashdashS then dashS
    else
      match jsParseFloat (s.filter isNumericChar) with
      | none => dashS
      | some q => priceFormatterFormat q

/-- Digit-or-comma test, the character class `[\d,]` of the size regexp. -/
def isDigitOrComma (c : Char) : Bool := c.isDigit || c == ','

/-- The text matched by `[\d,]+\.?\d*` when it starts at the head of `s`
(whose head is known to be a digit or comma): a maximal `[\d,]+` run, then an
optional `.` together with a maximal digit run. -/
def takeNumMatch (s : Str) : Str :=
  let p := s.takeWhile isDigitOrComma
  match s.drop p.length with
  | '.' :: r2 => p ++ '.' :: r2.takeWhile Char.isDigit
  | _ => p

/-- Model of `decodedSize.match (...)` (App.tsx line 84): the leftmost match of
the regexp `[\d,]+\.?\d*` in `s`, or `none` when `s` has no digit and no
comma. -/
def findNumMatch : Str → Option Str
  | [] => none
  | c :: rest => if isDigitOrComma c then some (takeNumMatch (c :: rest)) else findNumMatch rest

/-- Embedding of `formatIPOSize` (App.tsx lines 81-89).  The raw input is
compared against `""`/`"--"` first; only then is it HTML-decoded, searched for
a numeric token, and (when one is found) comma-stripped, parsed and formatted
with a `" Cr"` suffix. -/
def formatIPOSize (size : Str) : Str :=
  if size = [] ∨ size = dashdashS then dashS
  else
    let decodedSize := decodeHTML size
    match findNumMatch decodedSize with
    | none => decodedSize
    | some m =>
      priceFormatterFormatN (jsParseFloat (m.filter (fun c => !(c == ',')))) ++ str (" Cr")

/-- Calendar date and time fields of a valid JavaScript `Date`
(month `1`-`12`, `12` = December). -/
structure DateFields where
  year : Nat
  month : Nat
  day : Nat
  hour : Nat
  minute : Nat
deriving DecidableEq, Repr

/-- A JavaScript `Date` object: `none` is an `Invalid Date` (a truthy object
whose `getTime()` is `NaN`), `some` a valid date. -/
abbrev JSDate : Type := Option DateFields

/-- Month number of a three-letter month name as produced by the API's
`"DD-MMM"` data (the host `Date` parser also accepts other spellings, which
this program never feeds it). -/
def monthNum (m : Str) : Option Nat :=
  if m = str ("Jan") then some 1
  else if m = str ("Feb") then some 2
  else if m = str ("Mar") then some 3
  else if m = str ("Apr") then some 4
  else if m = str ("May") then some 5
  else if m = str ("Jun") then some 6
  else if m = str ("Jul") then some 7
  else if m = str ("Aug") then some 8
  else if m = str ("Sep") then some 9
  else if m = str ("Oct") then some 10
  else if m = str ("Nov") then some 11
  else if m = str ("Dec") then some 12
  else none

/-- Gregorian leap-year test. -/
def isLeapYear (y : Nat) : Bool := y % 4 = 0 && (y % 100 ≠ 0 || y % 400 = 0)

/-- Number of days of month `m` (1-12) in year `y`. -/
def daysInMonth (m y : Nat) : Nat :=
  if m = 2 then (if isLeapYear y then 29 else 28)
  else if m = 4 ∨ m = 6 ∨ m = 9 ∨ m = 11 then 30
  else 31

/-- Day-of-month component: all decimal digits, in range for the month. -/
def parseDayNum (d : Str) (month year : Nat) : Option Nat :=
  if d ≠ [] ∧ d.all Char.isDigit then
    let n := digitsToNat d
    if 1 ≤ n ∧ n ≤ daysInMonth month year then some n else none
  else none

/-- Time-of-day component `"HH:mm"` as the API supplies it. -/
def parseTimeOfDay (t : Str) : Option (Nat × Nat) :=
  match t.splitOn ':' with
  | [h, m] =>
    if h ≠ [] ∧ h.all Char.isDigit ∧ m ≠ [] ∧ m.all Char.isDigit then
      let hv := digitsToNat h
      let mv := digitsToNat m
      if hv ≤ 23 ∧ mv ≤ 59 then some (hv, mv) else none
    else none
  | _ => none

/-- Model of the host `Date` constructor on the strings `parseDate` builds:
`"MMM DD, YYYY"` (time `none`) or `"MMM DD, YYYY T"` where `T` should be
`"HH:mm"`.  Any unrecognized component yields an `Invalid Date`. -/
def jsNewDate (month day : Str) (year : Nat) (time : Option Str) : JSDate :=
  match monthNum month with
  | none => none
  | some m =>
    match parseDayNum day m year with
    | none => none
    | some d =>
      match time with
      | none => some ⟨year, m, d, 0, 0⟩
      | some t =>
        match parseTimeOfDay t with
        | none => none
        | some (hv, mv) => some ⟨year, m, d, hv, mv⟩

/-- Embedding of `parseDate` (App.tsx lines 97-116).  The outer `Option` is
the JavaScript `null` sentinel; `year` is the value of
`new Date().getFullYear()` at call time.  A missing `split` component is the
literal text `"undefined"` after template interpolation, which the date
constructor rejects. -/
def parseDate (year : Nat) (dateStr : Option Str) : Option JSDate :=
  match dateStr with
  | none => none
  | some s =>
    if s = [] then none
    else if s.contains '-' && !(s.contains ':') then
      let parts := s.splitOn '-'
      let day := (parts[0]?).getD (str ("undefined"))
      let month := (parts[1]?).getD (str ("undefined"))
      some (jsNewDate month day year none)
    else if s.contains ':' then
      let sp := s.splitOn ' '
      let datePart := (sp[0]?).getD (str ("undefined"))
      let timePart := (sp[1]?).getD (str ("undefined"))
      let dparts := datePart.splitOn '-'
      let day := (dparts[0]?).getD (str ("undefined"))
      let month := (dparts[1]?).getD (str ("undefined"))
      some (jsNewDate month day year (some timePart))
    else none

/-- Order-faithful model of `Date.prototype.getTime` on valid dates: strictly
monotone in the lexicographic field order, standing in for epoch
milliseconds. -/
def dateMinutes (d : DateFields) : ℤ :=
  ((((d.year * 12 + d.month) * 32 + d.day) * 24 + d.hour) * 60 + d.minute : Nat)

/-- Result of `getTime()`: `none` is `NaN` (on an `Invalid Date`). -/
def getTime : JSDate → Option ℤ
  | none => none
  | some d => some (dateMinutes d)

/-- The sortable column keys (the `SortBy` enum of `src/src/types.ts`; the UI
passes exactly these to `sortData`). -/
inductive SortBy where
  | ipo
  | price
  | gmp
  | est_listing
  | ipo_size
  | lot
  | «open»
  | close
  | boa_dt
  | listing
  | gmp_updated
deriving DecidableEq, Repr

/-- Sort direction. -/
inductive SortOrder where
  | asc
  | desc
deriving DecidableEq, Repr

/-- The lookup `a[sortBy as keyof GmpDataItem] || ''` (App.tsx lines 136-137):
a `null` field becomes the empty string. -/
def getField (i : GmpDataItem) : SortBy → Str
  | .ipo => i.ipo
  | .price => i.price
  | .gmp => i.gmp
  | .est_listing => i.est_listing
  | .ipo_size => i.ipo_size
  | .lot => i.lot
  | .«open» => (i.«open»).getD []
  | .close => i.close.getD []
  | .boa_dt => i.boa_dt.getD []
  | .listing => i.listing.getD []
  | .gmp_updated => i.gmp_updated

/-- Model of `String.prototype.localeCompare` restricted to its sign, which is
all the comparator uses: lexicographic comparison by character code.  (Locale
collation can order differently; no verified property depends on the relative
order of two parseable strings under this branch.) -/
def localeCompare : Str → Str → ℤ
  | [], [] => 0
  | [], _ :: _ => -1
  | _ :: _, [] => 1
  | a :: as, b :: bs =>
    if a.toNat < b.toNat then -1
    else if b.toNat < a.toNat then 1
    else localeCompare as bs

/-- The comparator body of `sortData` (App.tsx lines 135-175).  The result
models the JavaScript comparator's number: `none` is `NaN` (possible only on
the date branch, via `getTime()` of an `Invalid Date`). -/
def compareItems (year : Nat) (sortBy : SortBy) (sortOrder : SortOrder)
    (a b : GmpDataItem) : Option ℚ :=
  let aVal := getField a sortBy
  let bVal := getField b sortBy
  match sortBy with
  | .price | .lot | .ipo_size =>
    let aNum := parseFloatOrZero (aVal.filter isNumericChar)
    let bNum := parseFloatOrZero (bVal.filter isNumericChar)
    some (match sortOrder with | .asc => aNum - bNum | .desc => bNum - aNum)
  | .gmp =>
    let aVal2 := if aVal = dashS then str ("0") else aVal
    let bVal2 := if bVal = dashS then str ("0") else bVal
    let aNum := parseFloatOrZero aVal2
    let bNum := parseFloatOrZero bVal2
    some (match sortOrder with | .asc => aNum - bNum | .desc => bNum - aNum)
  | .«open» | .close | .boa_dt | .listing | .gmp_updated =>
    match parseDate year (some aVal), parseDate year (some bVal) with
    | none, none => some 0
    | none, some _ => some (match sortOrder with | .asc => 1 | .desc => -1)
    | some _, none => some (match sortOrder with | .asc => -1 | .desc => 1)
    | some aDate, some bDate =>
      match getTime aDate, getTime bDate with
      | some at0, some bt0 =>
        some (match sortOrder with
          | .asc => ((at0 - bt0 : ℤ) : ℚ)
          | .desc => ((bt0 - at0 : ℤ) : ℚ))
      | _, _ => none
  | _ =>
    some (match sortOrder with
      | .asc => ((localeCompare aVal bVal : ℤ) : ℚ)
      | .desc => ((localeCompare bVal aVal : ℤ) : ℚ))

/-- ECMA-262 turns a comparator result into an ordering decision: a
nonpositive (or `NaN`) result leaves `a` at or before `b`. -/
def jsLe (c : Option ℚ) : Bool :=
  match c with
  | none => true
  | some q => decide (q ≤ 0)

/-- Insert `a` into `l` before the first element it is `le`-related to; the
building block of the stable sort model. -/
def orderedInsert (le : α → α → Bool) (a : α) : List α → List α
  | [] => [a]
  | b :: l => if le a b then a :: b :: l else b :: orderedInsert le a l

/-- Stable sorting by a boolean comparison, modelling
`Array.prototype.sort` (ECMA-262 requires a stable sort; for a consistent
comparator the stable sorted sequence is unique). -/
def stableSort (le : α → α → Bool) : List α → List α
  | [] => []
  | a :: l => orderedInsert le a (stableSort le l)

/-- Embedding of `sortData` (App.tsx lines 130-176).  The source copies the
array (`[...data]`) before the in-place sort, so the operation is pure;
`year` is the calendar year the comparator's `parseDate` calls observe. -/
def sortData (year : Nat) (data : List GmpDataItem) (sortBy : SortBy)
    (sortOrder : SortOrder) : List GmpDataItem :=
  stableSort (fun a b => jsLe (compareItems year sortBy sortOrder a b)) data

/-- Embedding of the filter step of `filteredAndSortedData` (App.tsx lines
227-235): keep the records whose HTML-decoded, lower-cased `ipo` name contains
the lower-cased search term. -/
def filterData (data : List GmpDataItem) (searchTerm : Str) : List GmpDataItem :=
  data.filter (fun item => strIncludes (toLowerStr searchTerm) (toLowerStr (decodeHTML item.ipo)))

/-- JavaScript division producing a finite number, `none` otherwise (here the
numerator is `0` whenever the denominator is, so `none` is exactly `NaN`). -/
def jsDiv (x y : ℚ) : Option ℚ := if y = 0 then none else some (x / y)

/-- Embedding of the `avgGMP` computation of `statsData` (App.tsx lines
249-253): records whose `gmp` is the placeholder `"-"` are dropped from the
numerator's `parseFloat` sum, and the sum is divided by the length of the
full, unfiltered list. -/
def avgGMP (data : List GmpDataItem) : Option ℚ :=
  let total := (data.filter (fun i => decide (i.gmp ≠ dashS))).foldl
    (fun acc i => acc + parseFloatOrZero i.gmp) 0
  jsDiv total (data.length : ℚ)

/-- The cache entry `{ data, timestamp }` (App.tsx lines 185-188). -/
structure CacheEntry where
  data : List GmpDataItem
  timestamp : ℤ
deriving DecidableEq

/-- The component state touched by `fetchData`: the published snapshot and the
`loading` / `error` / `refreshing` / `cache` state hooks (App.tsx lines
178-188). -/
structure AppState where
  gmpData : List GmpDataItem
  loading : Bool
  error : Option Str
  refreshing : Bool
  cache : Option CacheEntry
deriving DecidableEq

/-- The cache validity window, `cacheDuration = 300000` ms (App.tsx line
191). -/
def cacheDuration : ℤ := 300000

/-- Result of the awaited network round trip: a parsed payload, a non-2xx
response (`!response.ok`), or a thrown error (network failure or malformed
JSON) whose `message` is `some` when the thrown value is an `Error`. -/
inductive FetchOutcome where
  | success (data : List GmpDataItem)
  | httpFailure (status : Nat)
  | thrownError (message : Option Str)
deriving DecidableEq

/-- Digit string of a natural number. -/
def natToStr (n : Nat) : Str := Nat.toDigits 10 n

/-- The error text built for a non-2xx response (App.tsx line 206). -/
def statusMsg (status : Nat) : Str :=
  str ("Failed to fetch data. Status: ") ++ natToStr status

/-- The fallback error text (App.tsx line 213). -/
def unknownErrorMsg : Str := str ("An unknown error occurred")

/-- The network branch of `fetchData` (App.tsx lines 200-218): the `try`
block, its `catch`, and the `finally` that clears `loading` and
`refreshing`. -/
def fetchNetwork (s : AppState) (now : ℤ) (outcome : FetchOutcome) :
    AppState × Bool :=
  match outcome with
  | .success d =>
    ({ s with gmpData := d, cache := some ⟨d, now⟩, error := none,
              loading := false, refreshing := false }, true)
  | .httpFailure status =>
    ({ s with error := some (statusMsg status), loading := false,
              refreshing := false }, true)
  | .thrownError m =>
    ({ s with error := some (m.getD unknownErrorMsg), loading := false,
              refreshing := false }, true)

/-- Embedding of `fetchData` (App.tsx lines 193-219) as a state transition.
`now` is `Date.now()` for this invocation (the cache-age check and the stored
timestamp), `outcome` the network result the invocation would observe.  The
returned boolean records whether a network call was issued. -/
def fetchData (s : AppState) (now : ℤ) (outcome : FetchOutcome) :
    AppState × Bool :=
  match s.cache with
  | some c =>
    if now - c.timestamp < cacheDuration then
      ({ s with gmpData := c.data, loading := false, refreshing := false }, false)
    else fetchNetwork s now outcome
  | none => fetchNetwork s now outcome

/-- Freshness of the cache entry at instant `now`, the guard of `fetchData`'s
short-circuit. -/
def cacheFresh (s : AppState) (now : ℤ) : Bool :=
  match s.cache with
  | some c => decide (now - c.timestamp < cacheDuration)
  | none => false

/-- The human-readable message each failing outcome is recorded with. -/
def failureMsg : FetchOutcome → Option Str
  | .success _ => none
  | .httpFailure status => some (statusMsg status)
  | .thrownError m => some (m.getD unknownErrorMsg)

/-- Concrete record with GMP `"100"` and an `open` string that matches neither
date pattern. -/
def recA : GmpDataItem :=
  { ipo := str ("A"), price := str (""), gmp := str ("100"), est_listing := str (""),
    ipo_size := str (""), lot := str (""), «open» := some (str ("xyz")), close := none,
    boa_dt := none, listing := none, gmp_updated := str (""), classname := none }

/-- Concrete record with the GMP placeholder `"-"` and a parseable `open`
date. -/
def recB : GmpDataItem :=
  { ipo := str ("B"), price := str (""), gmp := str ("-"), est_listing := str (""),
    ipo_size := str (""), lot := str (""), «open» := some (str ("23-Dec")), close := none,
    boa_dt := none, listing := none, gmp_updated := str (""), classname := none }

/-- Concrete record with GMP `"50"`. -/
def recC : GmpDataItem :=
  { ipo := str ("C"), price := str (""), gmp := str ("50"), est_listing := str (""),
    ipo_size := str (""), lot := str (""), «open» := none, close := none,
    boa_dt := none, listing := none, gmp_updated := str (""), classname := none }

/-- Concrete state holding a cache entry stamped at `t = 1000`. -/
def st0 : AppState := AppState.mk [] false none false (some (CacheEntry.mk [] 1000))

/-- Concrete initial state with an empty cache. -/
def st1 : AppState := AppState.mk [] true none false none

/-- The sentinel really is the one-character string `"-"`. -/
theorem dashS_eq : dashS = ['-'] := rfl

/-- The formatted output of the price formatter always starts with a rupee or
minus sign followed by at least one digit, so it is never the one-character
sentinel `"-"`. -/
theorem priceFormatterFormat_ne_dash (q : ℚ) : priceFormatterFormat q ≠ dashS := by
  intro h
  rw [dashS_eq] at h
  simp only [priceFormatterFormat] at h
  split at h <;> simp at h

/-- A comparator value of `1` means "after". -/
theorem jsLe_some_one : jsLe (some 1) = false := by decide

/-- A comparator value of `-1` means "before". -/
theorem jsLe_some_negOne : jsLe (some (-1)) = true := by decide

/-- The empty search string occurs in every string. -/
theorem strIncludes_nil (h : Str) : strIncludes [] h = true := by
  cases h <;> simp [strIncludes, List.isPrefixOf]

/-- Ordered insertion permutes. -/
theorem orderedInsert_perm {α : Type _} (le : α → α → Bool) (a : α) :
    ∀ l : List α, (orderedInsert le a l).Perm (a :: l)
  | [] => List.Perm.refl _
  | b :: l => by
    simp only [orderedInsert]
    split
    · exact List.Perm.refl _
    · exact (List.Perm.cons b (orderedInsert_perm le a l)).trans (List.Perm.swap a b l)

/-- The stable sort permutes its input. -/
theorem stableSort_perm {α : Type _} (le : α → α → Bool) :
    ∀ l : List α, (stableSort le l).Perm l
  | [] => List.Perm.refl _
  | a :: l =>
    (orderedInsert_perm le a (stableSort le l)).trans
      (List.Perm.cons a (stableSort_perm le l))

/-- Accumulating a sum with `foldl` equals the mapped sum. -/
theorem foldl_add_map_sum {α : Type _} (f : α → ℚ) :
    ∀ (l : List α) (init : ℚ),
      l.foldl (fun acc i => acc + f i) init = init + (l.map f).sum
  | [], init => by simp
  | a :: l, init => by
    simp [foldl_add_map_sum f l (init + f a), add_assoc]

/-- Claim C7: for every year, snapshot, field and direction, `sortData`
returns a permutation of its input; the source sorts a copy (`[...data]`), so
in this pure embedding the input list itself is untouched by construction. -/
theorem sortData_perm (year : Nat) (data : List GmpDataItem) (f : SortBy)
    (o : SortOrder) : (sortData year data f o).Perm data :=
  stableSort_perm _ data

/-- Claim C8: the filter keeps exactly the records whose HTML-decoded,
lower-cased name contains the lower-cased query; with the empty query it
returns the whole snapshot unchanged, and it is idempotent. -/
theorem filterData_spec :
    (∀ (data : List GmpDataItem) (q : Str) (item : GmpDataItem),
      item ∈ filterData data q ↔
        item ∈ data ∧
        strIncludes (toLowerStr q) (toLowerStr (decodeHTML item.ipo)) = true) ∧
    (∀ data : List GmpDataItem, filterData data [] = data) ∧
    (∀ (data : List GmpDataItem) (q : Str),
      filterData (filterData data q) q = filterData data q) := by
  refine ⟨?_, ?_, ?_⟩
  · intro data q item
    simp [filterData, List.mem_filter]
  · intro data
    simp [filterData, toLowerStr, strIncludes_nil]
  · intro data q
    simp only [filterData, List.filter_filter, Bool.and_self]

/-- Claim C5: `parseDate` is total (it returns a date object or the `null`
sentinel, never an exception); it returns the sentinel on `null`, on the empty
string and on any string containing neither `-` nor `:`; and `"23-Dec"`
parses to December 23 of the year current at call time. -/
theorem parseDate_spec :
    (∀ year : Nat, parseDate year none = none) ∧
    (∀ year : Nat, parseDate year (some []) = none) ∧
    (∀ (year : Nat) (s : Str), '-' ∉ s → ':' ∉ s →
      parseDate year (some s) = none) ∧
    (∀ year : Nat, parseDate year (some (str ("23-Dec"))) =
      some (some { year := year, month := 12, day := 23, hour := 0, minute := 0 })) := by
  refine ⟨fun _ => rfl, fun _ => rfl, ?_, fun _ => rfl⟩
  intro year s h1 h2
  simp [parseDate, h1, h2]

/-- Witness for C5 at concrete inputs. -/
theorem parseDate_spec_witness :
    parseDate 2025 (some (str ("hello"))) = none ∧
    parseDate 2025 (some (str ("23-Dec"))) =
      some (some { year := 2025, month := 12, day := 23, hour := 0, minute := 0 }) :=
  ⟨parseDate_spec.2.2.1 2025 (str ("hello")) (by decide) (by decide),
   parseDate_spec.2.2.2 2025⟩

/-- Claim C10: `formatIPOSize` returns the sentinel exactly on the raw inputs
`""` and `"--"`, before any decoding (the entity-encoded `"&#45;&#45;"`
decodes to `"--"` yet is returned decoded, not as the sentinel); any other
input without a numeric token in its decoded form is returned decoded and
unchanged. -/
theorem formatIPOSize_spec :
    formatIPOSize [] = dashS ∧
    formatIPOSize dashdashS = dashS ∧
    formatIPOSize (str ("&#45;&#45;")) = str ("--") ∧
    (∀ s : Str, s ≠ [] → s ≠ dashdashS → findNumMatch (decodeHTML s) = none →
      formatIPOSize s = decodeHTML s) := by
  refine ⟨by decide, by decide, by decide, ?_⟩
  intro s h1 h2 h3
  simp [formatIPOSize, h1, h2, h3]

/-- Witness for C10 at a concrete input with no numeric token. -/
theorem formatIPOSize_spec_witness :
    formatIPOSize (str ("abc")) = decodeHTML (str ("abc")) :=
  formatIPOSize_spec.2.2.2 (str ("abc")) (by decide) (by decide) (by decide)

/-- Claim C1 (code bug): with a cache entry only 500 ms old, the Refresh
action (which invokes `fetchData` with no force flag) issues no network call
and merely republishes the cached snapshot, contradicting the documented
"manual force refresh pulls fresh data" behaviour. -/
theorem refresh_fresh_cache_no_network :
    (fetchData st0 1500 (FetchOutcome.success [recA])).2 = false ∧
    (fetchData st0 1500 (FetchOutcome.success [recA])).1.gmpData = [] := by decide

/-- Claim C2 (counterexample): sorting by `open` in descending order places
the record whose date is unparseable (`parseDate` returns the `null`
sentinel) at the FRONT of the output, not at the end. -/
theorem sortData_desc_unparseable_first :
    sortData 2025 [recB, recA] SortBy.«open» SortOrder.desc = [recA, recB] ∧
    parseDate 2025 (some (getField recA SortBy.«open»)) = none ∧
    parseDate 2025 (some (getField recB SortBy.«open»)) =
      some (some { year := 2025, month := 12, day := 23, hour := 0, minute := 0 }) ∧
    recA ≠ recB := by decide

/-- Claim C2 (amended): on a date field, when exactly one of the two records
has an unparseable date, the comparator's sign DOES flip with the direction
(`+1`/`-1` for ascending, `-1`/`+1` for descending): the unparseable record
is placed at the end of the output in ascending order but at the beginning in
descending order. -/
theorem sortData_unparseable_date_direction (year : Nat) (f : SortBy)
    (a b : GmpDataItem)
    (hf : f = .«open» ∨ f = .close ∨ f = .boa_dt ∨ f = .listing ∨ f = .gmp_updated)
    (ha : parseDate year (some (getField a f)) = none)
    (hb : ∃ d, parseDate year (some (getField b f)) = some d) :
    compareItems year f .asc a b = some 1 ∧
    compareItems year f .desc a b = some (-1) ∧
    compareItems year f .asc b a = some (-1) ∧
    compareItems year f .desc b a = some 1 ∧
    sortData year [a, b] f .asc = [b, a] ∧
    sortData year [b, a] f .asc = [b, a] ∧
    sortData year [a, b] f .desc = [a, b] ∧
    sortData year [b, a] f .desc = [a, b] := by
  obtain ⟨d, hb⟩ := hb
  rcases hf with rfl | rfl | rfl | rfl | rfl <;>
    refine ⟨by simp [compareItems, ha, hb], by simp [compareItems, ha, hb],
      by simp [compareItems, ha, hb], by simp [compareItems, ha, hb],
      ?_, ?_, ?_, ?_⟩ <;>
    simp [sortData, stableSort, orderedInsert, compareItems, ha, hb,
      jsLe_some_one, jsLe_some_negOne]

/-- Witness for the amended C2 at concrete records. -/
theorem sortData_unparseable_date_direction_witness :
    compareItems 2025 SortBy.«open» SortOrder.asc recA recB = some 1 ∧
    compareItems 2025 SortBy.«open» SortOrder.desc recA recB = some (-1) ∧
    compareItems 2025 SortBy.«open» SortOrder.asc recB recA = some (-1) ∧
    compareItems 2025 SortBy.«open» SortOrder.desc recB recA = some 1 ∧
    sortData 2025 [recA, recB] SortBy.«open» SortOrder.asc = [recB, recA] ∧
    sortData 2025 [recB, recA] SortBy.«open» SortOrder.asc = [recB, recA] ∧
    sortData 2025 [recA, recB] SortBy.«open» SortOrder.desc = [recA, recB] ∧
    sortData 2025 [recB, recA] SortBy.«open» SortOrder.desc = [recA, recB] :=
  sortData_unparseable_date_direction 2025 SortBy.«open» recA recB
    (Or.inl rfl) (by decide)
    ⟨some { year := 2025, month := 12, day := 23, hour := 0, minute := 0 }, by decide⟩

/-- Claim C3 (counterexample): for the snapshot with GMP values `"100"`,
`"-"`, `"50"`, the implemented `avgGMP` is `50` (the `150` sum is divided by
the FULL record count `3`), not the claimed `75`. -/
theorem avgGMP_total_count_counterexample :
    avgGMP [recA, recB, recC] = some 50 ∧ some (50 : ℚ) ≠ some (75 : ℚ) := by
  constructor
  · simp +decide [avgGMP, jsDiv, recA, recB, recC, parseFloatOrZero, jsParseFloat,
      parseUnsigned, digitsToNat, digitVal, str, isJsSpace, dashS]
    norm_num
  · norm_num

/-- Claim C3 (amended): `avgGMP` sums `parseFloat(gmp)` (defaulting to `0`)
over the records whose GMP is not the placeholder `"-"` but divides by the
TOTAL record count; the result is `NaN` exactly when the snapshot is empty,
and it is `50` (not `75`) for the GMP values `"100"`, `"-"`, `"50"`. -/
theorem avgGMP_spec :
    (∀ data : List GmpDataItem,
      (avgGMP data = none ↔ data = []) ∧
      (data ≠ [] →
        avgGMP data = some
          ((((data.filter (fun i => decide (i.gmp ≠ dashS))).map
            (fun i => parseFloatOrZero i.gmp)).sum) / (data.length : ℚ)))) ∧
    avgGMP [recA, recB, recC] = some 50 := by
  constructor
  · intro data
    constructor
    · rcases eq_or_ne data [] with rfl | h
      · simp [avgGMP, jsDiv]
      · simp only [avgGMP, jsDiv]
        rw [if_neg (by simpa [List.length_eq_zero] using h)]
        simp [h]
    · intro h
      simp only [avgGMP, jsDiv, foldl_add_map_sum, zero_add]
      rw [if_neg (by simpa [List.length_eq_zero] using h)]
  · simp +decide [avgGMP, jsDiv, recA, recB, recC, parseFloatOrZero, jsParseFloat,
      parseUnsigned, digitsToNat, digitVal, str, isJsSpace, dashS]
    norm_num

/-- Witness for the amended C3 at a concrete nonempty snapshot. -/
theorem avgGMP_spec_witness :
    avgGMP [recA, recB, recC] = some
      (((([recA, recB, recC].filter (fun i => decide (i.gmp ≠ dashS))).map
        (fun i => parseFloatOrZero i.gmp)).sum) /
        (([recA, recB, recC] : List GmpDataItem).length : ℚ)) :=
  (avgGMP_spec.1 [recA, recB, recC]).2 (by decide)

/-- Claim C4: a call of `fetchData` that finds a cache entry younger than
`cacheDuration` republishes the cached snapshot and issues no network call;
consequently, starting from an empty cache, a successful fetch followed by a
second refresh inside the validity window issues exactly one network call in
total. -/
theorem cache_hit_short_circuit :
    (∀ (s : AppState) (now : ℤ) (outcome : FetchOutcome) (c : CacheEntry),
      s.cache = some c → now - c.timestamp < cacheDuration →
      fetchData s now outcome =
        ({ s with gmpData := c.data, loading := false, refreshing := false }, false)) ∧
    (∀ (s0 : AppState) (d : List GmpDataItem) (t t2 : ℤ) (outcome2 : FetchOutcome),
      s0.cache = none → t2 - t < cacheDuration →
      (fetchData s0 t (FetchOutcome.success d)).2 = true ∧
      (fetchData (fetchData s0 t (FetchOutcome.success d)).1 t2 outcome2).2 = false) := by
  constructor
  · intro s now outcome c hc h
    simp [fetchData, hc, h]
  · intro s0 d t t2 outcome2 hc h
    constructor <;> simp [fetchData, fetchNetwork, hc, h]

/-- Witness for C4 at concrete states and instants. -/
theorem cache_hit_short_circuit_witness :
    fetchData st0 1500 (FetchOutcome.httpFailure 500) =
      (AppState.mk [] false none false (some (CacheEntry.mk [] 1000)), false) ∧
    ((fetchData st1 0 (FetchOutcome.success [recA])).2 = true ∧
     (fetchData (fetchData st1 0 (FetchOutcome.success [recA])).1 100
       (FetchOutcome.httpFailure 500)).2 = false) :=
  ⟨cache_hit_short_circuit.1 st0 1500 (FetchOutcome.httpFailure 500)
      (CacheEntry.mk [] 1000) rfl (by decide),
   cache_hit_short_circuit.2 st1 [recA] 0 100 (FetchOutcome.httpFailure 500)
      rfl (by decide)⟩

/-- Claim C9: when the network path is taken and the fetch fails (non-2xx
status or thrown error), the failure's human-readable message is recorded in
`error` while the published snapshot and the cache entry are left exactly as
they were. -/
theorem fetch_failure_preserves_state (s : AppState) (now : ℤ)
    (outcome : FetchOutcome) (m : Str)
    (hfresh : cacheFresh s now = false) (hfail : failureMsg outcome = some m) :
    (fetchData s now outcome).1.error = some m ∧
    (fetchData s now outcome).1.gmpData = s.gmpData ∧
    (fetchData s now outcome).1.cache = s.cache ∧
    (fetchData s now outcome).2 = true := by
  have hnet : fetchData s now outcome = fetchNetwork s now outcome := by
    rcases hc : s.cache with _ | c
    · simp [fetchData, hc]
    · have hold : ¬(now - c.timestamp < cacheDuration) := by
        simpa [cacheFresh, hc] using hfresh
      simp [fetchData, hc, hold]
  rw [hnet]
  cases outcome with
  | success d => exact absurd hfail (by simp [failureMsg])
  | httpFailure status =>
    have : m = statusMsg status := by simpa [failureMsg] using hfail.symm
    subst this
    simp [fetchNetwork]
  | thrownError msg =>
    have : m = msg.getD unknownErrorMsg := by simpa [failureMsg] using hfail.symm
    subst this
    simp [fetchNetwork]

/-- Witness for C9: a thrown error with no message against an empty cache. -/
theorem fetch_failure_preserves_state_witness :
    (fetchData st1 0 (FetchOutcome.thrownError none)).1.error = some unknownErrorMsg ∧
    (fetchData st1 0 (FetchOutcome.thrownError none)).1.gmpData = st1.gmpData ∧
    (fetchData st1 0 (FetchOutcome.thrownError none)).1.cache = st1.cache ∧
    (fetchData st1 0 (FetchOutcome.thrownError none)).2 = true :=
  fetch_failure_preserves_state st1 0 (FetchOutcome.thrownError none)
    unknownErrorMsg rfl rfl

/-- Claim C6: `formatPrice` yields the display sentinel `"-"` exactly when the
input is `null`, the placeholder `"--"`, or a string whose `[0-9.-]`-stripped
form fails to parse as a number; on every other input it yields the localized
Indian-grouping currency rendering of the parsed number. -/
theorem formatPrice_spec :
    (∀ p : Option Str,
      (formatPrice p = dashS ↔
        p = none ∨ p = some dashdashS ∨
        ∃ s, p = some s ∧ jsParseFloat (s.filter isNumericChar) = none)) ∧
    (∀ (s : Str) (q : ℚ), s ≠ dashdashS →
      jsParseFloat (s.filter isNumericChar) = some q →
      formatPrice (some s) = priceFormatterFormat q) := by
  constructor
  · intro p
    match p with
    | none => simp [formatPrice]
    | some s =>
      constructor
      · intro h
        by_cases h0 : s = [] ∨ s = dashdashS
        · rcases h0 with rfl | rfl
          · exact Or.inr (Or.inr ⟨[], rfl, rfl⟩)
          · exact Or.inr (Or.inl rfl)
        · refine Or.inr (Or.inr ⟨s, rfl, ?_⟩)
          rw [formatPrice] at h
          rw [if_neg h0] at h
          match hq : jsParseFloat (s.filter isNumericChar) with
          | none => rfl
          | some q =>
            rw [hq] at h
            exact absurd h (priceFormatterFormat_ne_dash q)
      · intro h
        rcases h with h | h | ⟨s2, hs2, h⟩
        · exact absurd h (by simp)
        · rw [Option.some_inj.mp h]
          simp [formatPrice, dashdashS]
        · obtain rfl := Option.some_inj.mp hs2
          rw [formatPrice]
          by_cases h0 : s = [] ∨ s = dashdashS
          · rw [if_pos h0]
          · rw [if_neg h0, h]
  · intro s q hs hq
    have h0 : ¬(s = [] ∨ s = dashdashS) := by
      rintro (rfl | rfl)
      · exact absurd hq (by simp [jsParseFloat, parseUnsigned])
      · exact hs rfl
    rw [formatPrice, if_neg h0, hq]

/-- Witness for C6: the spec's own example input `"1,234.50"`. -/
theorem formatPrice_spec_witness :
    formatPrice (some (str ("1,234.50"))) = priceFormatterFormat (2469 / 2) :=
  formatPrice_spec.2 (str ("1,234.50")) (2469 / 2) (by decide)
    (by
      simp +decide [jsParseFloat, parseUnsigned, digitsToNat, digitVal,
        isJsSpace, isNumericChar, str]
      norm_num)

end IpoGmp
